import Mathlib

/-!
Verification of the filesystem-mediated request/response queue of the
claude-text-editor repository.

The embedding covers the client side (`claude_text_client.py`:
`ClaudeTextClient.process_text` and `main`) and the worker side
(`text-editor-server.py`: `TextEditorServer._process_next_file`,
`_start_monitoring`, `_stop_monitoring`).  File names and payloads are
lists of characters; wall-clock readings and fallible filesystem
operations are passed in explicitly, so every run of the embedded code
is a pure, executable computation.
-/

/-- Character list of a string literal. -/
def lit (s : String) : List Char := s.toList

/-- Decimal digit character, as Python's decimal formatting produces. -/
def digitChar (n : Nat) : Char := Char.ofNat (48 + n)

/-- Zero-padded fixed-width decimal rendering: `strftime` zero-pads `%m`,
`%d`, `%H`, `%M`, `%S` to width 2, `%Y` to width 4 and `%f` to width 6.
The width is exact; digits beyond it are dropped (callers stay in range). -/
def padNat : Nat → Nat → List Char
  | 0, _ => []
  | w+1, n => padNat w (n / 10) ++ [digitChar (n % 10)]

/-- Python's `str` of a nonnegative integer, used for the
`int(time.time())` token in the worker's response file name. -/
def natStr (n : Nat) : List Char := Nat.toDigits 10 n

/-- A wall-clock instant as `datetime.now()` exposes it to `strftime`. -/
structure DateTime where
  year : Nat
  month : Nat
  day : Nat
  hour : Nat
  minute : Nat
  second : Nat
  micro : Nat
deriving DecidableEq

/-- Field bounds within which the `strftime` zero-padding is exact
(every reading of a real clock satisfies them). -/
def DateTime.valid (t : DateTime) : Prop :=
  t.year < 10 ^ 4 ∧ t.month < 10 ^ 2 ∧ t.day < 10 ^ 2 ∧ t.hour < 10 ^ 2 ∧
  t.minute < 10 ^ 2 ∧ t.second < 10 ^ 2 ∧ t.micro < 10 ^ 6

instance (t : DateTime) : Decidable t.valid := by
  unfold DateTime.valid; infer_instance

/-- The identifier `timestamp = datetime.now().strftime("%Y%m%d_%H%M%S_%f")`
(claude_text_client.py, line 41).  This string is the request
identifier; it is derived from the clock reading alone. -/
def strftimeId (t : DateTime) : List Char :=
  padNat 4 t.year ++ padNat 2 t.month ++ padNat 2 t.day ++ lit "_" ++
  padNat 2 t.hour ++ padNat 2 t.minute ++ padNat 2 t.second ++ lit "_" ++
  padNat 6 t.micro

/-- The request file name `input_filename = f"text_{timestamp}.txt"` (claude_text_client.py,
line 42). -/
def requestFilename (t : DateTime) : List Char :=
  lit "text_" ++ strftimeId t ++ lit ".txt"

/-- Python's `pathlib.PurePath.stem`: the final path component without its last
extension (the part after the last dot is stripped together with the
dot; a name with no dot is returned whole). -/
def stem (name : List Char) : List Char :=
  let afterDot := name.reverse.takeWhile (fun c => c != '.')
  if afterDot.length = name.length then name
  else (name.reverse.drop (afterDot.length + 1)).reverse

/-- The worker's response file name
`f"response_{file_path.stem}_{int(time.time())}.txt"`
(text-editor-server.py, line 233); `tsec` is `int(time.time())` at the
moment the worker builds the name. -/
def responseFilename (requestName : List Char) (tsec : Nat) : List Char :=
  lit "response_" ++ stem requestName ++ lit "_" ++ natStr tsec ++ lit ".txt"

/-- One token of a glob pattern: a literal character or `*`. -/
inductive GlobTok where
  | char (c : Char)
  | star
deriving DecidableEq

/-- The literal tokens of a fixed piece of a pattern. -/
def litToks (s : List Char) : List GlobTok := s.map GlobTok.char

/-- fnmatch-style matching of one file name against a glob pattern, as
`pathlib.Path.glob` applies it to a single directory entry: `*` matches
any, possibly empty, run of characters. -/
def globMatch : List GlobTok → List Char → Bool
  | [], s => s.isEmpty
  | GlobTok.char _ :: _, [] => false
  | GlobTok.char c :: toks, d :: s => c == d && globMatch toks s
  | GlobTok.star :: toks, s => s.tails.any (fun t => globMatch toks t)

/-- The glob `response_pattern = f"response_text_{timestamp}_*.txt"`
(claude_text_client.py, line 54): the pattern the Submitter polls the
outbox with. -/
def responsePattern (timestamp : List Char) : List GlobTok :=
  litToks (lit "response_text_") ++ litToks timestamp ++ litToks (lit "_") ++
  [GlobTok.star] ++ litToks (lit ".txt")

/-- Python's `str.startswith`, as `result.startswith("Error:")` uses it. -/
def startsWith : List Char → List Char → Bool
  | [], _ => true
  | _ :: _, [] => false
  | c :: p, d :: s => c == d && startsWith p s

/-- The characters removed by Python's default `str.strip()`. -/
def pySpace (c : Char) : Bool :=
  c == ' ' || c == Char.ofNat 9 || c == Char.ofNat 10 || c == Char.ofNat 13 ||
  c == Char.ofNat 11 || c == Char.ofNat 12

/-- The test `not text.strip()`: the payload is empty or whitespace only. -/
def strippedEmpty (s : List Char) : Bool := s.all pySpace

deriving instance DecidableEq for Except

/-- Outcome of one poll of the outbox (one iteration of the wait loop in
`process_text`): either no file matched the response pattern, or a first
match was found and its read either produced content or raised. -/
inductive PollEvent where
  | noFile
  | found (read : Except (List Char) (List Char))
deriving DecidableEq

/-- The value `process_text` returns, before rendering to a string. -/
inductive ClientResult where
  | success (content : List Char)
  | writeFailed (e : List Char)
  | readFailed (e : List Char)
  | timedOut
deriving DecidableEq

/-- The exact strings `process_text` returns (claude_text_client.py,
lines 51, 77, 81 and 96). -/
def renderResult : ClientResult → List Char
  | ClientResult.success c => c
  | ClientResult.writeFailed e => lit "Error: Failed to write input file: " ++ e
  | ClientResult.readFailed e => lit "Error: Failed to read response: " ++ e
  | ClientResult.timedOut => lit "Error: Timeout waiting for Claude response"

/-- The result a poll's find maps to: content on a successful read, the
read-failure error when the read raises. -/
def foundResult : Except (List Char) (List Char) → ClientResult
  | Except.error e => ClientResult.readFailed e
  | Except.ok c => ClientResult.success c

/-- The wait loop of `process_text` (lines 58-84) on an idealised clock:
iteration `k` runs at `0.5 * k` seconds after submission, and either
finds a response (returning at once) or sleeps another half second.
`fuel` counts the iterations for which the guard
`time.time() - start_time < timeout` still holds; the second component
of the value is the half-second tick at which the loop ends. -/
def pollLoop (polls : Nat → PollEvent) : Nat → Nat → ClientResult × Nat
  | 0, k => (ClientResult.timedOut, k)
  | fuel+1, k =>
    match polls k with
    | PollEvent.noFile => pollLoop polls fuel (k+1)
    | PollEvent.found (Except.error e) => (ClientResult.readFailed e, k)
    | PollEvent.found (Except.ok c) => (ClientResult.success c, k)

/-- Result of a whole `process_text` call: the returned value, the
half-second tick at which the call returned, and whether the request
file is still in the inbox afterwards. -/
structure ClientOutcome where
  result : ClientResult
  halfSecs : Nat
  requestInInbox : Bool
deriving DecidableEq

/-- The Submitter `ClaudeTextClient.process_text` (claude_text_client.py,
lines 29-96).
`timeout` is the integer timeout in seconds, so the guard admits exactly
`2 * timeout` half-second poll iterations.  `writeErr` is the exception
text when the initial `input_path.write_text(text)` raises; `polls`
gives the outcome of each outbox scan; `stillThere` says whether the
request file is still in the inbox when the wait ends (a worker may have
consumed it); `unlinkOk` says whether the timeout-path
`input_path.unlink()` succeeds (its failure is swallowed by
`except: pass`). -/
def processText (timeout : Nat) (writeErr : Option (List Char))
    (polls : Nat → PollEvent) (stillThere unlinkOk : Bool) : ClientOutcome :=
  match writeErr with
  | some e => ⟨ClientResult.writeFailed e, 0, false⟩
  | none =>
    match pollLoop polls (2 * timeout) 0 with
    | (ClientResult.timedOut, k) =>
      ⟨ClientResult.timedOut, k,
        if stillThere then (if unlinkOk then false else true) else false⟩
    | (r, k) => ⟨r, k, stillThere⟩

/-- Exit code of `main` (claude_text_client.py, lines 126-155): exit 1
when stdin is blank; otherwise exit 1 exactly when the result string
starts with "Error:", else exit 0. -/
def mainExitCode (stdinText : List Char) (result : ClientResult) : Nat :=
  if strippedEmpty stdinText then 1
  else if startsWith (lit "Error:") (renderResult result) then 1 else 0

/-- Whether the submission itself failed: every non-success path of
`process_text`. -/
def submissionFailed : ClientResult → Bool
  | ClientResult.success _ => false
  | _ => true

/-- One inbox directory entry as the worker sees it: its name, its
`st_mtime`, and the outcome of `read_text` on it (`Except.error e`
models the read raising with exception text `e`). -/
structure FsFile where
  name : List Char
  mtime : Nat
  data : Except (List Char) (List Char)
deriving DecidableEq

/-- Membership in the `*.txt` glob the worker scans with (line 201). -/
def isTxt (name : List Char) : Bool :=
  globMatch (GlobTok.star :: litToks (lit ".txt")) name

/-- Python `set.add` on the worker's `processed_files`, modelled as a
duplicate-free list. -/
def addName (n : List Char) (s : List (List Char)) : List (List Char) :=
  if s.contains n then s else s ++ [n]

/-- The pending files of one scan (text-editor-server.py, lines
199-205): the `*.txt` inbox entries whose names are not in
`processed_files`, in directory-iteration order. -/
def pendingFiles (inbox : List FsFile) (processed : List (List Char)) : List FsFile :=
  inbox.filter (fun f => isTxt f.name && !(processed.contains f.name))

/-- Stable insertion by `st_mtime` key: the new element goes in front of
the first already-placed element whose key is not smaller. -/
def insortMtime (x : FsFile) : List FsFile → List FsFile
  | [] => [x]
  | y :: ys => if x.mtime ≤ y.mtime then x :: y :: ys else y :: insortMtime x ys

/-- The call `pending_files.sort(key=lambda x: x[0])` (line 211): Python's sort
is stable on the `st_mtime` key, and a stable insertion sort is an exact
model of its input/output behaviour. -/
def pySort : List FsFile → List FsFile
  | [] => []
  | x :: xs => insortMtime x (pySort xs)

/-- Lines 199-212: scan, filter against `processed_files`, sort by
modification time, take the first. -/
def selectNext (inbox : List FsFile) (processed : List (List Char)) : Option FsFile :=
  (pySort (pendingFiles inbox processed)).head?

/-- The mutable state of a `TextEditorServer` relevant to the queue,
together with the filesystem directories it touches.  `promptText` is
the outcome of `self.prompt_file.read_text()`; `monitorTasks` counts the
monitor loops created by `asyncio.create_task`. -/
structure WorkerState where
  inbox : List FsFile
  outbox : List (List Char × List Char)
  processed : List (List Char)
  monitoring : Bool
  monitorTasks : Nat
  promptText : Except (List Char) (List Char)
deriving DecidableEq

/-- Return value of `_process_next_file`, before rendering to a string. -/
inductive WorkerResult where
  | noFiles
  | readError (e : List Char)
  | processFile (respName : List Char) (fullPrompt : List Char)
deriving DecidableEq

/-- Observable steps of one `_process_next_file` call, in program order. -/
inductive WorkerEv where
  | selected (n : List Char)
  | readAttempt (n : List Char) (ok : Bool)
  | addProcessed (n : List Char)
  | unlinkAttempt (n : List Char) (ok : Bool)
deriving DecidableEq

/-- Result, final state and event trace of one `_process_next_file` call. -/
structure WorkerOutcome where
  result : WorkerResult
  state : WorkerState
  trace : List WorkerEv
deriving DecidableEq

/-- The worker step `TextEditorServer._process_next_file`
(text-editor-server.py, lines 196-249).  `tsec` is `int(time.time())` when the response name is built;
`unlinkOk` says whether `file_path.unlink()` succeeds (its failure is
logged and swallowed, line 242).  The function itself never writes to
the outbox: it returns the response file name and the combined prompt
for the embedding shell to act on, so `state.outbox` is unchanged on
every path. -/
def processNextFile (s : WorkerState) (tsec : Nat) (unlinkOk : Bool) : WorkerOutcome :=
  match selectNext s.inbox s.processed with
  | none => ⟨WorkerResult.noFiles, s, []⟩
  | some f =>
    match f.data with
    | Except.error e =>
      ⟨WorkerResult.readError e,
        { s with processed := addName f.name s.processed },
        [WorkerEv.selected f.name, WorkerEv.readAttempt f.name false,
         WorkerEv.addProcessed f.name]⟩
    | Except.ok content =>
      let promptTemplate :=
        match s.promptText with
        | Except.ok tpl => tpl
        | Except.error _ => lit "Process this text:\n"
      let fullPrompt := promptTemplate ++ lit "\n" ++ content
      let respName := responseFilename f.name tsec
      let inbox' :=
        if unlinkOk then s.inbox.filter (fun g => g.name != f.name) else s.inbox
      ⟨WorkerResult.processFile respName fullPrompt,
        { s with processed := addName f.name s.processed, inbox := inbox' },
        [WorkerEv.selected f.name, WorkerEv.readAttempt f.name true,
         WorkerEv.addProcessed f.name, WorkerEv.unlinkAttempt f.name unlinkOk]⟩

/-- The ordering property C5 claims of one call's trace: the identifier
is added to `processed_files` before any fallible filesystem step (a
read or unlink attempt) occurs. -/
def addBeforeFallible : List WorkerEv → Bool
  | [] => true
  | WorkerEv.readAttempt _ _ :: _ => false
  | WorkerEv.unlinkAttempt _ _ :: _ => false
  | WorkerEv.addProcessed _ :: _ => true
  | _ :: tr => addBeforeFallible tr

/-- The tool `TextEditorServer._start_monitoring` (text-editor-server.py,
lines 251-261).  The message on an actual start is
`f"Started monitoring {self.monitor_dir}"`; the directory path is fixed,
so the model renders the fixed part. -/
def startMonitoring (s : WorkerState) : List Char × WorkerState :=
  if s.monitoring then (lit "Already monitoring", s)
  else (lit "Started monitoring",
    { s with monitoring := true, monitorTasks := s.monitorTasks + 1 })

/-- The tool `TextEditorServer._stop_monitoring` (text-editor-server.py,
lines 263-269). -/
def stopMonitoring (s : WorkerState) : List Char × WorkerState :=
  if s.monitoring then (lit "Stopped monitoring", { s with monitoring := false })
  else (lit "Not currently monitoring", s)

/-- First file in scan order among those of minimal modification time:
the deterministic tiebreak that the stable sort in `_process_next_file`
realises within a single scan. -/
def firstMin : List FsFile → Option FsFile
  | [] => none
  | x :: xs =>
    match firstMin xs with
    | none => some x
    | some m => if x.mtime ≤ m.mtime then some x else some m

/-- A fixed clock reading used for concrete runs. -/
def sampleTime : DateTime := ⟨2024, 1, 2, 3, 4, 5, 6⟩

/-- A second clock reading, one microsecond later. -/
def sampleTime2 : DateTime := ⟨2024, 1, 2, 3, 4, 5, 7⟩

/-- The pair of request filenames generated by two back-to-back
`process_text` calls whose `datetime.now()` readings fall in the same
microsecond `t`: claude_text_client.py lines 41-42 derive the name from
the clock reading alone (no counter, randomness or sequence enters), so
both calls format the same reading. -/
def sameMicroIds (t : DateTime) : List Char × List Char :=
  (requestFilename t, requestFilename t)

/-- A worker state whose single pending request file cannot be read. -/
def unreadableState : WorkerState :=
  ⟨[⟨lit "text_bad.txt", 7, Except.error (lit "boom")⟩], [], [], false, 0,
    Except.ok (lit "tpl")⟩

/-- A worker state with one readable pending request file. -/
def readableState : WorkerState :=
  ⟨[⟨lit "text_ok.txt", 7, Except.ok (lit "hello")⟩], [], [], false, 0,
    Except.ok (lit "tpl")⟩

/-- A worker state with two pending request files, the later-listed one
older, plus a third already processed. -/
def twoFileState : WorkerState :=
  ⟨[⟨lit "text_a.txt", 5, Except.ok (lit "pa")⟩,
    ⟨lit "text_b.txt", 3, Except.ok (lit "pb")⟩,
    ⟨lit "text_c.txt", 1, Except.ok (lit "pc")⟩], [], [lit "text_c.txt"],
    false, 0, Except.ok (lit "tpl")⟩

/-- A worker state whose monitor loop is running. -/
def monitoringState : WorkerState := ⟨[], [], [], true, 1, Except.ok []⟩

/-- A worker state whose monitor loop is stopped. -/
def idleState : WorkerState := ⟨[], [], [], false, 0, Except.ok []⟩

theorem padNat_length (w n : Nat) : (padNat w n).length = w := by
  induction w generalizing n with
  | zero => rfl
  | succ w ih => simp [padNat, ih]

theorem lit_underscore : lit "_" = ['_'] := rfl

theorem strftimeId_length (t : DateTime) : (strftimeId t).length = 22 := by
  simp [strftimeId, padNat_length, lit_underscore]

theorem lit_txt : lit ".txt" = ['.', 't', 'x', 't'] := rfl

theorem stem_append_txt (xs : List Char) : stem (xs ++ lit ".txt") = xs := by
  have h1 : (xs ++ lit ".txt").reverse = 't' :: 'x' :: 't' :: '.' :: xs.reverse := by
    rw [lit_txt]; simp
  have h2 : ('t' :: 'x' :: 't' :: '.' :: xs.reverse).takeWhile (fun c => c != '.') =
      ['t', 'x', 't'] := by
    simp +decide [List.takeWhile_cons]
  have h3 : (xs ++ lit ".txt").length = xs.length + 4 := by rw [lit_txt]; simp
  simp only [stem, h1, h2, h3]
  rw [if_neg (by simp)]
  simp

theorem startsWith_append_self (p t : List Char) : startsWith p (p ++ t) = true := by
  induction p with
  | nil => rfl
  | cons c cs ih => simp [startsWith, ih]

theorem startsWith_append_of (p s t : List Char) (h : startsWith p s = true) :
    startsWith p (s ++ t) = true := by
  induction p generalizing s with
  | nil => rfl
  | cons c cs ih =>
    cases s with
    | nil => simp [startsWith] at h
    | cons d s' =>
      simp [startsWith] at h ⊢
      exact ⟨h.1, ih s' h.2⟩

theorem globMatch_nil_iff (s : List Char) : globMatch [] s = true ↔ s = [] := by
  cases s <;> simp [globMatch]

theorem globMatch_litToks_append (xs : List Char) (toks : List GlobTok) (s : List Char) :
    globMatch (litToks xs ++ toks) s = true ↔
      ∃ s', s = xs ++ s' ∧ globMatch toks s' = true := by
  induction xs generalizing s with
  | nil => simp [litToks]
  | cons c cs ih =>
    cases s with
    | nil => simp [litToks, globMatch]
    | cons d s =>
      simp only [litToks, List.map_cons, List.cons_append, globMatch, Bool.and_eq_true,
        beq_iff_eq, List.append_eq]
      rw [show List.map GlobTok.char cs = litToks cs from rfl, ih]
      constructor
      · rintro ⟨hcd, s', rfl, hm⟩
        exact ⟨s', by simp [hcd], hm⟩
      · rintro ⟨s', heq, hm⟩
        rw [List.cons_eq_cons] at heq
        exact ⟨heq.1.symm, s', heq.2, hm⟩

theorem globMatch_litToks_iff (xs s : List Char) :
    globMatch (litToks xs) s = true ↔ s = xs := by
  have h := globMatch_litToks_append xs [] s
  rw [List.append_nil] at h
  rw [h]
  constructor
  · rintro ⟨s', rfl, hm⟩
    rw [globMatch_nil_iff] at hm
    simp [hm]
  · rintro rfl
    exact ⟨[], by simp, rfl⟩

theorem globMatch_star_iff (toks : List GlobTok) (s : List Char) :
    globMatch (GlobTok.star :: toks) s = true ↔
      ∃ a b, s = a ++ b ∧ globMatch toks b = true := by
  simp only [globMatch, List.any_eq_true, List.mem_tails]
  constructor
  · rintro ⟨t, ht, hm⟩
    obtain ⟨a, rfl⟩ := ht
    exact ⟨a, t, rfl, hm⟩
  · rintro ⟨a, b, rfl, hm⟩
    exact ⟨b, ⟨a, rfl⟩, hm⟩

theorem padNat_mod_eq (w m n : Nat) (h : padNat w m = padNat w n) :
    m % 10 ^ w = n % 10 ^ w := by
  induction w generalizing m n with
  | zero => simp [Nat.mod_one]
  | succ w ih =>
    obtain ⟨h1, h2⟩ := List.append_inj (h : padNat w (m / 10) ++ [digitChar (m % 10)] =
      padNat w (n / 10) ++ [digitChar (n % 10)]) (by simp [padNat_length])
    have hd : digitChar (m % 10) = digitChar (n % 10) := by simpa using h2
    have hdec : ∀ a < 10, ∀ b < 10, digitChar a = digitChar b → a = b := by decide
    have hm10 : m % 10 = n % 10 :=
      hdec _ (Nat.mod_lt _ (by norm_num)) _ (Nat.mod_lt _ (by norm_num)) hd
    have hq := ih _ _ h1
    have e1 : m % 10 ^ (w + 1) = m % 10 + 10 * (m / 10 % 10 ^ w) := by
      rw [pow_succ']
      exact Nat.mod_mul
    have e2 : n % 10 ^ (w + 1) = n % 10 + 10 * (n / 10 % 10 ^ w) := by
      rw [pow_succ']
      exact Nat.mod_mul
    rw [e1, e2, hm10, hq]

theorem padNat_inj (w m n : Nat) (hm : m < 10 ^ w) (hn : n < 10 ^ w)
    (h : padNat w m = padNat w n) : m = n := by
  have := padNat_mod_eq w m n h
  rwa [Nat.mod_eq_of_lt hm, Nat.mod_eq_of_lt hn] at this

theorem append_inj_pad (w : Nat) {m n : Nat} {a b : List Char}
    (h : padNat w m ++ a = padNat w n ++ b) : padNat w m = padNat w n ∧ a = b :=
  List.append_inj h (by rw [padNat_length, padNat_length])

theorem append_inj_lit {s : String} {a b : List Char}
    (h : lit s ++ a = lit s ++ b) : a = b :=
  List.append_cancel_left h

theorem strftimeId_inj (t u : DateTime) (ht : t.valid) (hu : u.valid)
    (h : strftimeId t = strftimeId u) : t = u := by
  obtain ⟨hty, htmo, htd, hth, htmi, hts, htmc⟩ := ht
  obtain ⟨huy, humo, hud, huh, humi, hus, humc⟩ := hu
  unfold strftimeId at h
  simp only [List.append_assoc] at h
  obtain ⟨h1, h⟩ := append_inj_pad 4 h
  obtain ⟨h2, h⟩ := append_inj_pad 2 h
  obtain ⟨h3, h⟩ := append_inj_pad 2 h
  have h := append_inj_lit h
  obtain ⟨h4, h⟩ := append_inj_pad 2 h
  obtain ⟨h5, h⟩ := append_inj_pad 2 h
  obtain ⟨h6, h⟩ := append_inj_pad 2 h
  have h8 := append_inj_lit h
  cases t; cases u
  simp only [DateTime.mk.injEq]
  exact ⟨padNat_inj 4 _ _ hty huy h1, padNat_inj 2 _ _ htmo humo h2,
    padNat_inj 2 _ _ htd hud h3, padNat_inj 2 _ _ hth huh h4,
    padNat_inj 2 _ _ htmi humi h5, padNat_inj 2 _ _ hts hus h6,
    padNat_inj 6 _ _ htmc humc h8⟩

theorem requestFilename_inj (t u : DateTime) (ht : t.valid) (hu : u.valid)
    (h : requestFilename t = requestFilename u) : t = u := by
  unfold requestFilename at h
  simp only [List.append_assoc] at h
  have h2 := append_inj_lit h
  obtain ⟨h3, _⟩ := List.append_inj h2 (by rw [strftimeId_length, strftimeId_length])
  exact strftimeId_inj t u ht hu h3

theorem pollLoop_all_noFile (polls : Nat → PollEvent) (fuel k : Nat)
    (h : ∀ j, k ≤ j → j < k + fuel → polls j = PollEvent.noFile) :
    pollLoop polls fuel k = (ClientResult.timedOut, k + fuel) := by
  induction fuel generalizing k with
  | zero => simp [pollLoop]
  | succ fuel ih =>
    have hk : polls k = PollEvent.noFile := h k (Nat.le_refl _) (by omega)
    rw [pollLoop, hk]
    rw [ih (k + 1) (fun j hj1 hj2 => h j (by omega) (by omega)),
      show k + 1 + fuel = k + (fuel + 1) by omega]

theorem pollLoop_found (polls : Nat → PollEvent) (fuel k i : Nat)
    (r : Except (List Char) (List Char))
    (hi : i < fuel) (hbefore : ∀ j, k ≤ j → j < k + i → polls j = PollEvent.noFile)
    (hfound : polls (k + i) = PollEvent.found r) :
    pollLoop polls fuel k = (foundResult r, k + i) := by
  induction i generalizing k fuel with
  | zero =>
    cases fuel with
    | zero => omega
    | succ fuel =>
      have hk : polls k = PollEvent.found r := by simpa using hfound
      rw [pollLoop, hk]
      cases r <;> simp [foundResult]
  | succ i ih =>
    cases fuel with
    | zero => omega
    | succ fuel =>
      have hk : polls k = PollEvent.noFile := hbefore k (Nat.le_refl _) (by omega)
      rw [pollLoop, hk]
      have hrec := ih fuel (k + 1) (by omega)
        (fun j hj1 hj2 => hbefore j (by omega) (by omega))
        (by rw [show k + 1 + i = k + (i + 1) by omega]; exact hfound)
      rw [hrec, show k + 1 + i = k + (i + 1) by omega]

theorem mem_insortMtime {x y : FsFile} {l : List FsFile} :
    y ∈ insortMtime x l ↔ y = x ∨ y ∈ l := by
  induction l with
  | nil => simp [insortMtime]
  | cons z zs ih =>
    rw [insortMtime]
    split
    · simp
    · simp only [List.mem_cons, ih]
      tauto

theorem mem_pySort {y : FsFile} {l : List FsFile} : y ∈ pySort l ↔ y ∈ l := by
  induction l with
  | nil => simp [pySort]
  | cons x xs ih => simp [pySort, mem_insortMtime, ih]

theorem pairwise_insortMtime {x : FsFile} {l : List FsFile}
    (h : List.Pairwise (fun a b => a.mtime ≤ b.mtime) l) :
    List.Pairwise (fun a b => a.mtime ≤ b.mtime) (insortMtime x l) := by
  induction l with
  | nil => simp [insortMtime]
  | cons z zs ih =>
    rw [insortMtime]
    rcases h with _ | ⟨hz, hzs⟩
    split
    · constructor
      · intro w hw
        rcases List.mem_cons.mp hw with rfl | hw
        · assumption
        · exact Nat.le_trans (by assumption) (hz w hw)
      · exact List.Pairwise.cons hz hzs
    · constructor
      · intro w hw
        rcases mem_insortMtime.mp hw with rfl | hw
        · omega
        · exact hz w hw
      · exact ih hzs

theorem pairwise_pySort (l : List FsFile) :
    List.Pairwise (fun a b => a.mtime ≤ b.mtime) (pySort l) := by
  induction l with
  | nil => simp [pySort]
  | cons x xs ih => exact pairwise_insortMtime ih

theorem head_pySort_eq_firstMin (l : List FsFile) : (pySort l).head? = firstMin l := by
  induction l with
  | nil => rfl
  | cons x xs ih =>
    rw [pySort, firstMin, ← ih]
    cases hs : pySort xs with
    | nil => simp [insortMtime]
    | cons y ys =>
      rw [insortMtime]
      split
      · next hxy => simp [hxy]
      · next hxy => simp [hxy]

theorem mem_addName (n : List Char) (s : List (List Char)) : n ∈ addName n s := by
  rw [addName]
  split
  · next h => simpa using h
  · simp

theorem mem_addName_of (m n : List Char) (s : List (List Char)) (h : m ∈ s) :
    m ∈ addName n s := by
  rw [addName]
  split
  · exact h
  · simp [h]

theorem lit_resp_text : lit "response_" ++ lit "text_" = lit "response_text_" := rfl

theorem responseFilename_request (t : DateTime) (tsec : Nat) :
    responseFilename (requestFilename t) tsec =
      lit "response_text_" ++
        (strftimeId t ++ (lit "_" ++ (natStr tsec ++ lit ".txt"))) := by
  have hstem : stem (requestFilename t) = lit "text_" ++ strftimeId t :=
    stem_append_txt (lit "text_" ++ strftimeId t)
  rw [responseFilename, hstem]
  simp only [List.append_assoc, ← lit_resp_text]

/-- C1 (counterexample): at the concrete clock reading `sampleTime` and
worker clock 5, the worker derives a response file name that differs
from the request's file name, and the glob pattern the Submitter polls
the outbox with does not match the request's file name either — the
code uses the pattern-match strategy, not the exact-name strategy the
claim asserts. -/
theorem C1_counterexample :
    responseFilename (requestFilename sampleTime) 5 ≠ requestFilename sampleTime ∧
    globMatch (responsePattern (strftimeId sampleTime)) (requestFilename sampleTime)
      = false := by
  decide

/-- C1 (amended): the two sides agree on the pattern-match strategy: for
every clock reading `t` and every worker clock `tsec`, the response file
name the worker derives for the request `text_<timestamp>.txt`
(`response_text_<timestamp>_<tsec>.txt`) matches the glob pattern
`response_text_<timestamp>_*.txt` the Submitter polls the outbox with,
with the request identifier a strict prefix of the response name's
variable part. -/
theorem C1_response_matches_pattern (t : DateTime) (tsec : Nat) :
    globMatch (responsePattern (strftimeId t))
      (responseFilename (requestFilename t) tsec) = true := by
  rw [responseFilename_request, responsePattern]
  simp only [List.append_assoc, List.singleton_append]
  rw [globMatch_litToks_append]
  refine ⟨strftimeId t ++ (lit "_" ++ (natStr tsec ++ lit ".txt")), rfl, ?_⟩
  rw [globMatch_litToks_append]
  refine ⟨lit "_" ++ (natStr tsec ++ lit ".txt"), rfl, ?_⟩
  rw [globMatch_litToks_append]
  refine ⟨natStr tsec ++ lit ".txt", rfl, ?_⟩
  rw [globMatch_star_iff]
  exact ⟨natStr tsec, lit ".txt", rfl, (globMatch_litToks_iff _ _).mpr rfl⟩

/-- C4 (confirmed): responses never cross-deliver.  Any two submit calls
whose generated request identifiers (the `strftime` timestamps) differ
produce responses that cannot be confused: the response file name the
worker derives for the first request does not match the outbox glob
pattern the second submitter polls.  (All generated identifiers have the
same, fixed length, which is what excludes prefix collisions.) -/
theorem C4_no_cross_delivery (t1 t2 : DateTime) (tsec : Nat)
    (hne : strftimeId t1 ≠ strftimeId t2) :
    globMatch (responsePattern (strftimeId t2))
      (responseFilename (requestFilename t1) tsec) = false := by
  cases hmatch : globMatch (responsePattern (strftimeId t2))
      (responseFilename (requestFilename t1) tsec) with
  | false => rfl
  | true =>
    exfalso
    rw [responsePattern] at hmatch
    simp only [List.append_assoc, List.singleton_append] at hmatch
    rw [globMatch_litToks_append] at hmatch
    obtain ⟨s1, hname, hm1⟩ := hmatch
    rw [globMatch_litToks_append] at hm1
    obtain ⟨s2, rfl, _⟩ := hm1
    rw [responseFilename_request] at hname
    have htails := append_inj_lit hname
    obtain ⟨heq, _⟩ := List.append_inj htails
      (by rw [strftimeId_length, strftimeId_length])
    exact hne heq

/-- C4 witness: two concrete distinct-identifier submissions do not
cross-match. -/
theorem C4_no_cross_delivery_witness :
    globMatch (responsePattern (strftimeId sampleTime2))
      (responseFilename (requestFilename sampleTime) 5) = false :=
  C4_no_cross_delivery sampleTime sampleTime2 5 (by decide)

/-- C7 (counterexample): request-identifier generation is not
collision-free within a microsecond.  The identifier is a pure function
of the `datetime.now()` reading — no counter, randomness or sequence is
mixed in — so two `process_text` calls whose clock readings fall in the
same microsecond receive byte-identical, not strictly distinguishable,
request filenames. -/
theorem C7_counterexample :
    (sameMicroIds sampleTime).1 = (sameMicroIds sampleTime).2 := rfl

/-- C7 (amended): identifiers separate calls exactly as far as the clock
does: for valid clock readings, two generated request filenames differ
precisely when the microsecond-resolution readings differ.  Same-
microsecond calls collide (see the counterexample); distinct readings
never collide. -/
theorem C7_distinct_iff_clock_distinct (t u : DateTime) (ht : t.valid) (hu : u.valid) :
    requestFilename t ≠ requestFilename u ↔ t ≠ u := by
  constructor
  · intro hne heq
    exact hne (heq ▸ rfl)
  · intro hne heq
    exact hne (requestFilename_inj t u ht hu heq)

/-- C7 witness: readings one microsecond apart give distinct request
filenames. -/
theorem C7_distinct_witness : requestFilename sampleTime ≠ requestFilename sampleTime2 :=
  (C7_distinct_iff_clock_distinct sampleTime sampleTime2 (by decide) (by decide)).mpr
    (by decide)

/-- C3 (confirmed): when no file matching the response pattern appears
before the timeout (no poll ever finds one), `process_text` runs its
full poll budget — returning at exactly `timeout` seconds, i.e.
`2 * timeout` half-second ticks — deletes the request file from the
inbox when the deletion succeeds (and returns the Timeout error
regardless, deletion failure being swallowed), so the inbox no longer
contains the request afterwards. -/
theorem C3_timeout_behaviour (timeout : Nat) (polls : Nat → PollEvent)
    (stillThere unlinkOk : Bool)
    (hnofile : ∀ k, k < 2 * timeout → polls k = PollEvent.noFile) :
    (processText timeout none polls stillThere unlinkOk).result = ClientResult.timedOut ∧
    (processText timeout none polls stillThere unlinkOk).halfSecs = 2 * timeout ∧
    (unlinkOk = true →
      (processText timeout none polls stillThere unlinkOk).requestInInbox = false) := by
  have hp := pollLoop_all_noFile polls (2 * timeout) 0
    (fun j hj1 hj2 => hnofile j (by omega))
  rw [show (0 : Nat) + 2 * timeout = 2 * timeout by omega] at hp
  refine ⟨?_, ?_, ?_⟩
  · simp [processText, hp]
  · simp [processText, hp]
  · simp only [processText, hp]
    intro hu
    subst hu
    cases stillThere <;> rfl

/-- C3 witness: with timeout 1 and no worker ever answering, the call
returns Timeout at tick 2 (1.0 second, inside the 1±0.5s window of the
claim, i.e. between ticks 1 and 3), and the request file is no longer
in the inbox. -/
theorem C3_timeout_witness :
    (processText 1 none (fun _ => PollEvent.noFile) true true).result
      = ClientResult.timedOut ∧
    (processText 1 none (fun _ => PollEvent.noFile) true true).halfSecs = 2 ∧
    1 ≤ (processText 1 none (fun _ => PollEvent.noFile) true true).halfSecs ∧
    (processText 1 none (fun _ => PollEvent.noFile) true true).halfSecs ≤ 3 ∧
    (processText 1 none (fun _ => PollEvent.noFile) true true).requestInInbox = false := by
  have h := C3_timeout_behaviour 1 (fun _ => PollEvent.noFile) true true (fun k hk => rfl)
  refine ⟨h.1, h.2.1, ?_, ?_, h.2.2 rfl⟩ <;> rw [h.2.1]
  · decide
  · decide

/-- C8 (counterexample): a response-read failure is not treated as a
benign race to be retried on the next poll.  With a 30-second budget (60
poll ticks) and the very first poll finding a response file whose read
raises, `process_text` returns the read-failure error immediately (tick
0), never retries, and the error — which is not Timeout — is surfaced to
the end caller as a hard failure (exit code 1). -/
theorem C8_counterexample :
    (processText 30 none (fun _ => PollEvent.found (Except.error (lit "gone")))
        true true).result = ClientResult.readFailed (lit "gone") ∧
    (processText 30 none (fun _ => PollEvent.found (Except.error (lit "gone")))
        true true).halfSecs = 0 ∧
    (processText 30 none (fun _ => PollEvent.found (Except.error (lit "gone")))
        true true).result ≠ ClientResult.timedOut ∧
    mainExitCode (lit "hello")
      (processText 30 none (fun _ => PollEvent.found (Except.error (lit "gone")))
        true true).result = 1 := by
  decide

/-- C8 (amended): when the first poll that finds a response file has its
read fail, `process_text` returns the read-failure error at that very
tick, abandoning the remaining poll budget instead of retrying; both
Timeout and read failures are surfaced to the caller. -/
theorem C8_read_failure_immediate (timeout k : Nat) (e : List Char)
    (polls : Nat → PollEvent) (stillThere unlinkOk : Bool)
    (hk : k < 2 * timeout)
    (hbefore : ∀ j, j < k → polls j = PollEvent.noFile)
    (hfail : polls k = PollEvent.found (Except.error e)) :
    (processText timeout none polls stillThere unlinkOk).result
      = ClientResult.readFailed e ∧
    (processText timeout none polls stillThere unlinkOk).halfSecs = k := by
  have hp := pollLoop_found polls (2 * timeout) 0 k (Except.error e) hk
    (fun j hj1 hj2 => hbefore j (by omega)) (by simpa using hfail)
  rw [show (0 : Nat) + k = k by omega] at hp
  refine ⟨?_, ?_⟩ <;> simp [processText, hp, foundResult]

/-- C8 witness: a read failure on the second poll tick surfaces at tick 1. -/
theorem C8_read_failure_witness :
    (processText 2 none
        (fun j => if j = 0 then PollEvent.noFile
                  else PollEvent.found (Except.error (lit "oops"))) true true).result
      = ClientResult.readFailed (lit "oops") ∧
    (processText 2 none
        (fun j => if j = 0 then PollEvent.noFile
                  else PollEvent.found (Except.error (lit "oops"))) true true).halfSecs
      = 1 :=
  C8_read_failure_immediate 2 1 (lit "oops")
    (fun j => if j = 0 then PollEvent.noFile
              else PollEvent.found (Except.error (lit "oops"))) true true
    (by decide) (by decide) (by decide)

/-- C9 (counterexample): the exit code is not 1 exactly when the
submission failed.  A submission that succeeds with a response whose
content happens to begin with "Error:" exits with code 1 anyway, because
`main` decides the exit code by testing the printed result for the
"Error:" prefix. -/
theorem C9_counterexample :
    submissionFailed (ClientResult.success (lit "Error: oops")) = false ∧
    mainExitCode (lit "hello") (ClientResult.success (lit "Error: oops")) = 1 := by
  decide

/-- C9 (amended): `main` exits 1 exactly when stdin is blank or the
result string starts with "Error:".  Every failing submission (write
failure, response-read failure, timeout) renders to a string starting
with "Error:", so every failure does exit 1; but a successful response
whose content itself begins with "Error:" is also treated as a failure. -/
theorem C9_exit_code (stdinText : List Char) (r : ClientResult) :
    (mainExitCode stdinText r = 1 ↔
      (strippedEmpty stdinText = true ∨
        startsWith (lit "Error:") (renderResult r) = true)) ∧
    (submissionFailed r = true → startsWith (lit "Error:") (renderResult r) = true) := by
  constructor
  · rw [mainExitCode]
    split
    · next h => simp [h]
    · next h =>
      split
      · next h2 => simp [h, h2]
      · next h2 => simp [h, h2]
  · intro hfail
    cases r with
    | success c => simp [submissionFailed] at hfail
    | writeFailed e =>
      exact startsWith_append_of _ _ _
        (startsWith_append_self (lit "Error:") (lit " Failed to write input file: "))
    | readFailed e =>
      exact startsWith_append_of _ _ _
        (startsWith_append_self (lit "Error:") (lit " Failed to read response: "))
    | timedOut => decide

/-- C9 witness: a timed-out submission is a failure, renders with the
"Error:" prefix, and exits 1. -/
theorem C9_exit_code_witness :
    startsWith (lit "Error:") (renderResult ClientResult.timedOut) = true ∧
    mainExitCode (lit "hello") ClientResult.timedOut = 1 := by
  have h := C9_exit_code (lit "hello") ClientResult.timedOut
  exact ⟨h.2 rfl, h.1.mpr (Or.inr (h.2 rfl))⟩

/-- C2 (counterexample): with a single pending request file whose read
raises, `_process_next_file` returns the read error but leaves the
request file in the inbox (it is not removed) and writes nothing to the
outbox (no best-effort error response) — the Submitter is left to wait
out its full timeout. -/
theorem C2_counterexample :
    (processNextFile unreadableState 5 true).result
      = WorkerResult.readError (lit "boom") ∧
    (processNextFile unreadableState 5 true).state.inbox = unreadableState.inbox ∧
    unreadableState.inbox ≠ [] ∧
    (processNextFile unreadableState 5 true).state.outbox = [] := by
  decide

/-- C2 (amended): when reading the selected request fails, the worker
marks the request's name processed (so this process never retries it)
and returns an error string, but it neither removes the request file
from the inbox nor writes any error response to the outbox. -/
theorem C2_read_failure_keeps_request (s : WorkerState) (tsec : Nat) (unlinkOk : Bool)
    (f : FsFile) (e : List Char)
    (hsel : selectNext s.inbox s.processed = some f)
    (hdata : f.data = Except.error e) :
    (processNextFile s tsec unlinkOk).result = WorkerResult.readError e ∧
    (processNextFile s tsec unlinkOk).state.inbox = s.inbox ∧
    (processNextFile s tsec unlinkOk).state.outbox = s.outbox ∧
    f.name ∈ (processNextFile s tsec unlinkOk).state.processed := by
  refine ⟨?_, ?_, ?_, ?_⟩ <;> simp [processNextFile, hsel, hdata, mem_addName]

/-- C2 witness: the amended behaviour at the concrete unreadable-file
state. -/
theorem C2_read_failure_witness :
    (processNextFile unreadableState 7 true).state.inbox = unreadableState.inbox ∧
    (processNextFile unreadableState 7 true).state.outbox = unreadableState.outbox ∧
    lit "text_bad.txt" ∈ (processNextFile unreadableState 7 true).state.processed := by
  have h := C2_read_failure_keeps_request unreadableState 7 true
    ⟨lit "text_bad.txt", 7, Except.error (lit "boom")⟩ (lit "boom") (by decide) rfl
  exact ⟨h.2.1, h.2.2.1, h.2.2.2⟩

/-- C5 (counterexample): the identifier is not added to the
ProcessedSet before any fallible step.  On a concrete run that selects
a readable request, the trace shows the fallible `read_text` attempt
occurring before the `processed_files.add` — refuting the claimed
ordering (the set is only updated after the read). -/
theorem C5_counterexample :
    (processNextFile readableState 5 true).result ≠ WorkerResult.noFiles ∧
    addBeforeFallible (processNextFile readableState 5 true).trace = false := by
  decide

/-- C5 (amended): although the add happens after the fallible read, on
every completion path (read success or read failure) the selected
request's name is in the ProcessedSet when `_process_next_file`
returns, so this worker process never processes the same request
twice. -/
theorem C5_processed_on_completion (s : WorkerState) (tsec : Nat) (unlinkOk : Bool)
    (f : FsFile) (hsel : selectNext s.inbox s.processed = some f) :
    f.name ∈ (processNextFile s tsec unlinkOk).state.processed := by
  cases hdata : f.data <;> simp [processNextFile, hsel, hdata, mem_addName]

/-- C5 witness: the amended membership at the concrete readable-file
state. -/
theorem C5_processed_witness :
    lit "text_ok.txt" ∈ (processNextFile readableState 5 true).state.processed :=
  C5_processed_on_completion readableState 5 true
    ⟨lit "text_ok.txt", 7, Except.ok (lit "hello")⟩ (by decide)

/-- C6 (confirmed): whenever the scan selects a file, that file is one
of the pending `*.txt` files not in the ProcessedSet, its modification
time is minimal among them, and the selection equals the first file in
scan order among those of minimal modification time — so selection
within a single scan is deterministic, with the stable sort breaking
ties by scan order. -/
theorem C6_selects_oldest (inbox : List FsFile) (processed : List (List Char))
    (f : FsFile) (hsel : selectNext inbox processed = some f) :
    f ∈ pendingFiles inbox processed ∧
    (∀ g ∈ pendingFiles inbox processed, f.mtime ≤ g.mtime) ∧
    selectNext inbox processed = firstMin (pendingFiles inbox processed) := by
  rw [selectNext] at hsel
  cases hps : pySort (pendingFiles inbox processed) with
  | nil => rw [hps] at hsel; simp at hsel
  | cons y ys =>
    rw [hps] at hsel
    simp only [List.head?_cons, Option.some.injEq] at hsel
    subst hsel
    have hpw := pairwise_pySort (pendingFiles inbox processed)
    rw [hps] at hpw
    refine ⟨?_, ?_, ?_⟩
    · exact mem_pySort.mp (by rw [hps]; exact List.mem_cons_self _ _)
    · intro g hg
      have : g ∈ y :: ys := by rw [← hps]; exact mem_pySort.mpr hg
      rcases List.mem_cons.mp this with rfl | hmem
      · exact Nat.le_refl _
      · exact List.rel_of_pairwise_cons hpw hmem
    · rw [selectNext, head_pySort_eq_firstMin]

/-- C6 witness: in a scan with two pending files (the later-listed one
older) and one already-processed file, the older pending file is
selected and its modification time is minimal among pending files. -/
theorem C6_selects_oldest_witness :
    ((⟨lit "text_b.txt", 3, Except.ok (lit "pb")⟩ : FsFile) ∈
      pendingFiles twoFileState.inbox twoFileState.processed) ∧
    (∀ g ∈ pendingFiles twoFileState.inbox twoFileState.processed,
      (3 : Nat) ≤ g.mtime) := by
  have h := C6_selects_oldest twoFileState.inbox twoFileState.processed
    ⟨lit "text_b.txt", 3, Except.ok (lit "pb")⟩ (by decide)
  exact ⟨h.1, h.2.1⟩

/-- C10 (confirmed): starting and stopping monitoring are idempotent.
`_start_monitoring` on a state already monitoring returns
"Already monitoring" and leaves the state unchanged — in particular no
second monitor loop is created — and `_stop_monitoring` on a state not
monitoring returns "Not currently monitoring" and leaves the state
unchanged. -/
theorem C10_monitoring_idempotent (s : WorkerState) :
    (s.monitoring = true → startMonitoring s = (lit "Already monitoring", s)) ∧
    (s.monitoring = false → stopMonitoring s = (lit "Not currently monitoring", s)) := by
  constructor
  · intro h
    rw [startMonitoring, if_pos h]
  · intro h
    rw [stopMonitoring, if_neg (by simp [h])]

/-- C10 witness: the idempotent replies at concrete monitoring and idle
states. -/
theorem C10_monitoring_idempotent_witness :
    startMonitoring monitoringState = (lit "Already monitoring", monitoringState) ∧
    stopMonitoring idleState = (lit "Not currently monitoring", idleState) :=
  ⟨(C10_monitoring_idempotent monitoringState).1 rfl,
    (C10_monitoring_idempotent idleState).2 rfl⟩
